import Mathlib

/-!
Shallow embedding of the STXLDriver device-session core
(`src/stxldriver/camera.py`, `src/stxldriver/parse.py`, `src/calibrate.py`)
with proofs about its exposure sequencing, setup write/verify retries,
cooldown policy, form parsing, reboot cache behaviour, timestamp
formatting and telemetry API surface.
-/

namespace STXL

/-- Terminal outcome of one exposure attempt (`calibrate.take_exposure`). -/
inductive Outcome where
  | Completed
  | TimedOut
  | UnexpectedState
  | LatchupDetected
  deriving DecidableEq, Repr

/-- Result of the tail of `calibrate.take_exposure`: the classified outcome
and whether the image was fetched (`camera.save_exposure` called). -/
structure ExposureResult where
  outcome : Outcome
  imageFetched : Bool
  deriving DecidableEq, Repr

/-- `np.min` over the collected temperature series, `none` on an empty list
(where `np.min` would fail). -/
def listMin : List ℚ → Option ℚ
  | [] => none
  | x :: xs =>
    some (match listMin xs with
          | none => x
          | some m => min x m)

/-- The latchup test in `calibrate.take_exposure` (line 152):
`cooling and np.any(np.array(pwr_history) == 100) and
 np.min(temp_history) > temperature_setpoint + 2`. -/
def latchupCondition (cooling : Bool) (setpoint : ℚ)
    (tempHistory pwrHistory : List ℚ) : Bool :=
  cooling && pwrHistory.any (fun p => p == 100) &&
    (match listMin tempHistory with
     | some m => decide (setpoint + 2 < m)
     | none => false)

/-- The terminal classification at the end of `calibrate.take_exposure`
(lines 149-160): a final state other than `"0"` returns `False` without
fetching; otherwise the latchup condition is checked and, when a
`latchup_action` was supplied, the action is invoked and `False` returned
without fetching; in every other case the image is fetched. -/
def classifyExposure (cooling hasLatchupAction : Bool) (setpoint : ℚ)
    (finalState : String) (tempHistory pwrHistory : List ℚ) : ExposureResult :=
  if finalState ≠ "0" then ⟨.UnexpectedState, false⟩
  else if latchupCondition cooling setpoint tempHistory pwrHistory then
    if hasLatchupAction then ⟨.LatchupDetected, false⟩
    else ⟨.Completed, true⟩
  else ⟨.Completed, true⟩

/-- The 1 Hz monitoring loop of `calibrate.take_exposure` (lines 126-143),
with time discretised to whole ticks: while the tick is below the deadline,
the device state is read; state `"0"` breaks out immediately, any other
state polls again at the next tick.  Returns the exit tick together with
the last observed state (initially `"?"`). -/
def monitorFrom (states : Nat → String) (deadline : Nat) :
    Nat → String → Nat × String
  | t, s =>
    if h : t < deadline then
      let s' := states t
      if s' = "0" then (t, s')
      else monitorFrom states deadline (t + 1) s'
    else (t, s)
  termination_by t _ => deadline - t

/-- `np.mean(history[-num_temperature_samples:])` in `calibrate.initialize`
(line 78): the mean of the last `n` readings (of the whole history while
fewer than `n` readings exist). -/
def movingAvg (n : Nat) (hist : List ℚ) : ℚ :=
  let lastn := hist.drop (hist.length - n)
  lastn.sum / lastn.length

/-- The break test of the cooldown loop in `calibrate.initialize`
(lines 80-88): with fewer than `num_temperature_samples` readings the loop
always continues; otherwise it breaks when `|tavg - setpoint| < max_tavg_error`
or, when `low_temperature_ok`, when `tavg < setpoint`. -/
def coolReached (lowOk : Bool) (sp err : ℚ) (n : Nat) (hist : List ℚ) : Bool :=
  if hist.length < n then false
  else
    decide (|movingAvg n hist - sp| < err) ||
      (lowOk && decide (movingAvg n hist < sp))

/-- The reading history accumulated after `t` iterations of the cooldown
loop (one `call_api` reading appended per 1 Hz tick). -/
def cooldownHist (readings : Nat → ℚ) (t : Nat) : List ℚ :=
  (List.range t).map readings

/-- The cooldown `while True` loop of `calibrate.initialize` (lines 75-88),
fuelled: each tick appends the next reading and breaks when `coolReached`
holds on the history so far, returning the number of readings consumed. -/
def cooldownLoop (readings : Nat → ℚ) (lowOk : Bool) (sp err : ℚ) (n : Nat) :
    Nat → Nat → Option Nat
  | 0, _ => none
  | fuel + 1, t =>
    if coolReached lowOk sp err n (cooldownHist readings (t + 1)) then
      some (t + 1)
    else cooldownLoop readings lowOk sp err n fuel (t + 1)

/-- The canonical fixture sequence `[15.2, 15.03, 14.98]`. -/
def seqA : Nat → ℚ := fun i => [(15.2 : ℚ), 15.03, 14.98].getD i 0

/-- The canonical fixture sequence `[15.04, 14.99, 15.01]`. -/
def seqB : Nat → ℚ := fun i => [(15.04 : ℚ), 14.99, 15.01].getD i 0

/-- A value stored in a parsed form's ordered dictionary: a plain string
field, or the list of allowed values of a radio group (the `_name_values`
entries of `FormParser`). -/
inductive FVal where
  | str (s : String)
  | vals (l : List String)
  deriving DecidableEq, Repr

/-- A parsed form: the insertion-ordered key/value pairs of the Python
`OrderedDict`. -/
abbrev Form := List (String × FVal)

/-- Ordered-dictionary lookup. -/
def lookupForm (f : Form) (k : String) : Option FVal :=
  (f.find? (fun p => p.1 == k)).map (fun p => p.2)

/-- Ordered-dictionary assignment `f[k] = v`: replace in place when the key
exists (keeping its position), append otherwise. -/
def setForm : Form → String → FVal → Form
  | [], k, v => [(k, v)]
  | (k', v') :: rest, k, v =>
    if k' = k then (k', v) :: rest else (k', v') :: setForm rest k v

/-- One HTML tag event as delivered by `html.parser` to
`FormParser.handle_starttag` / `handle_endtag`; attributes missing from the
tag appear as `""` (the `defaultdict(str)` wrapping). -/
inductive TagEvent where
  | startForm (name : String)
  | startInput (itype name value : String) (checked : Bool)
  | startOther
  | endForm
  | endOther
  deriving DecidableEq, Repr

/-- The `RuntimeError`s raised by `FormParser.handle_starttag`, plus the
`AttributeError` that a non-list `_name_values` entry would raise on
`.append`. -/
inductive ParseError where
  | duplicateForm (name : String)
  | orphanInput
  | badInputType (formName : String) (itype : String)
  | duplicateField (formName : String) (name : String)
  | duplicateChecked (formName : String) (name : String)
  | appendToNonList (name : String)
  deriving DecidableEq, Repr

/-- The mutable state of a `FormParser`: the ordered mapping of named forms
and the name of the currently open form (`self.form` / `self.form_name`,
`none` when no form is open). -/
structure ParserState where
  forms : List (String × Form)
  current : Option String
  deriving DecidableEq, Repr

/-- Lookup in the parser's ordered mapping of forms. -/
def lookupAssoc (fs : List (String × Form)) (k : String) : Option Form :=
  (fs.find? (fun p => p.1 == k)).map (fun p => p.2)

/-- In-place update of the form object stored under `k` (Python mutates the
dictionary object referenced by `self.form`). -/
def setAssoc (fs : List (String × Form)) (k : String) (v : Form) :
    List (String × Form) :=
  fs.map (fun p => if p.1 = k then (k, v) else p)

/-- The input types accepted by `FormParser.handle_starttag` (line 57). -/
def allowedInputTypes : List String :=
  ["radio", "text", "hidden", "submit", "button"]

/-- `FormParser.handle_starttag` / `handle_endtag` (parse.py lines 41-85) as
one step of a state machine over tag events. -/
def handleTag (st : ParserState) : TagEvent → Except ParseError ParserState
  | .startForm name =>
    if (lookupAssoc st.forms name).isSome then
      .error (.duplicateForm name)
    else
      .ok { forms := st.forms ++ [(name, [])], current := some name }
  | .startInput itype name value checked =>
    match st.current with
    | none => .error .orphanInput
    | some fname =>
      if ¬ allowedInputTypes.contains itype then
        .error (.badInputType fname itype)
      else
        let form := (lookupAssoc st.forms fname).getD []
        if itype = "submit" ∨ itype = "button" then .ok st
        else if itype = "text" ∨ itype = "hidden" then
          if (lookupForm form name).isSome then
            .error (.duplicateField fname name)
          else
            .ok { st with
                  forms := setAssoc st.forms fname
                    (form ++ [(name, .str value)]) }
        else
          -- radio: append to the allowed-value list, then record a checked
          -- occurrence as the selected value.
          let vk := "_" ++ name ++ "_values"
          match lookupForm form vk with
          | some (.str _) => .error (.appendToNonList name)
          | other =>
            let form1 :=
              match other with
              | none => form ++ [(vk, .vals [value])]
              | some (.vals l) => setForm form vk (.vals (l ++ [value]))
              | some (.str _) => form
            if checked then
              if (lookupForm form1 name).isSome then
                .error (.duplicateChecked fname name)
              else
                .ok { st with
                      forms := setAssoc st.forms fname
                        (form1 ++ [(name, .str value)]) }
            else
              .ok { st with forms := setAssoc st.forms fname form1 }
  | .startOther => .ok st
  | .endForm => .ok { st with current := none }
  | .endOther => .ok st

/-- The initial `FormParser` state. -/
def initParserState : ParserState := ⟨[], none⟩

/-- Continue feeding tag events from a given parser state. -/
def feedFrom (st : ParserState) (evs : List TagEvent) :
    Except ParseError ParserState :=
  evs.foldlM handleTag st

/-- `FormParser().feed(...)` at the level of tag events. -/
def feed (evs : List TagEvent) : Except ParseError ParserState :=
  feedFrom initParserState evs

/-- Python's single-quote character, for `str()` rendering of lists. -/
def squote : String := String.singleton (Char.ofNat 39)

/-- Python's `str()` of a list of strings (modulo escaping). -/
def pyStrList (l : List String) : String :=
  "[" ++ String.intercalate ", " (l.map (fun s => squote ++ s ++ squote)) ++ "]"

/-- `str(value)` as used by `'{0}={1}'.format` in `Camera._build_query`. -/
def fvalText : FVal → String
  | .str s => s
  | .vals l => pyStrList l

/-- The errors of the `Camera` write path: the `ValueError` of
`_build_query`, the `RuntimeError` of `write_setup` after exhausted
retries, the `KeyError` a read-back form missing a field would raise, and
the `ValueError` of `call_api`. -/
inductive CameraError where
  | invalidName (name : String)
  | verifyFailed (maxRetries : Nat)
  | keyError (name : String)
  | invalidMethod (method : String)
  deriving DecidableEq, Repr

/-- The override-merging loop of `Camera._build_query` (lines 75-78): each
override key must already be present, else `ValueError`. -/
def mergeKwargs (params : Form) : List (String × String) →
    Except CameraError Form
  | [] => .ok params
  | (n, v) :: rest =>
    if (lookupForm params n).isSome then
      mergeKwargs (setForm params n (.str v)) rest
    else .error (.invalidName n)

/-- Python's `name[0] != '_'` test in `_build_query` (line 74); an empty
name, on which Python would raise `IndexError`, is treated as kept. -/
def keptName (n : String) : Bool :=
  match n.data.head? with
  | some c => decide (c ≠ '_')
  | none => true

/-- `Camera._build_query` (lines 71-81): drop underscore-prefixed keys,
merge the overrides, and render the full query string. -/
def buildQuery (defaults : Form) (kwargs : List (String × String)) :
    Except CameraError (Form × String) := do
  let params ← mergeKwargs (defaults.filter (fun p => keptName p.1)) kwargs
  let queries := params.map (fun p => p.1 ++ "=" ++ fvalText p.2)
  return (params, "?" ++ String.intercalate "&" queries)

/-- Status of one verification pass of `write_setup` (lines 114-121):
all fields matched, some field mismatched, or `self.setup[name]` raised
`KeyError`. -/
inductive VerifyStatus where
  | ok
  | mismatch
  | keyErr (name : String)
  deriving DecidableEq, Repr

/-- The read-back comparison of `write_setup` (lines 115-121): each field of
the merged setup is compared with the read-back form, and a missing field
raises `KeyError` at that point of the iteration. -/
def verifySetup : Form → Form → VerifyStatus
  | [], _ => .ok
  | (n, v) :: rest, rb =>
    match lookupForm rb n with
    | none => .keyErr n
    | some rv =>
      match verifySetup rest rb with
      | .keyErr m => .keyErr m
      | s => if rv == v then s else .mismatch

/-- Result of the write/verify loop: the final cached setup form, the
requests issued (in order), the number of write attempts made, and the
final verification status. -/
structure LoopRes where
  setup : Form
  requests : List String
  attempts : Nat
  status : VerifyStatus
  deriving DecidableEq, Repr

/-- The `while attempts < 1 + max_retries` loop of `write_setup`
(lines 108-126).  `device k` is the `CameraSetup` form parsed from the
`k`-th `read_setup` HTTP GET of this call; each attempt issues the
write-read (with the query), and an unverified attempt issues a plain
re-read before retrying. -/
def writeLoop (device : Nat → Form) (news : Form) (query : String) :
    Nat → Nat → Nat → Form → List String → LoopRes
  | 0, _, attempts, st, reqs => ⟨st, reqs, attempts, .mismatch⟩
  | r + 1, k, attempts, _st, reqs =>
    let w := device k
    let reqs' := reqs ++ ["/setup.html" ++ query]
    match verifySetup news w with
    | .keyErr n => ⟨w, reqs', attempts + 1, .keyErr n⟩
    | .ok => ⟨w, reqs', attempts + 1, .ok⟩
    | .mismatch =>
      writeLoop device news query r (k + 2) (attempts + 1) (device (k + 1))
        (reqs' ++ ["/setup.html"])

/-- Result of one `write_setup` call: the session's setup cache afterwards,
the requests issued, the write attempts made, and the outcome. -/
structure WriteOutcome where
  setup : Option Form
  requests : List String
  attempts : Nat
  result : Except CameraError Unit
  deriving Repr

/-- `Camera.write_setup` (lines 101-128): lazily read the baseline when the
setup cache is empty, build the merged query, then run the write/verify
loop; exhausted retries raise the `RuntimeError`. -/
def write_setup (device : Nat → Form) (setup0 : Option Form)
    (kwargs : List (String × String)) (max_retries : Nat) : WriteOutcome :=
  let base :=
    match setup0 with
    | none => (device 0, ["/setup.html"], 1)
    | some f => (f, ([] : List String), 0)
  match buildQuery base.1 kwargs with
  | .error e => ⟨some base.1, base.2.1, 0, .error e⟩
  | .ok (news, query) =>
    let res := writeLoop device news query (1 + max_retries) base.2.2 0
      base.1 base.2.1
    ⟨some res.setup, res.requests, res.attempts,
      match res.status with
      | .ok => .ok ()
      | .mismatch => .error (.verifyFailed max_retries)
      | .keyErr n => .error (.keyError n)⟩

/-- A device that accepts a write only on every 3rd attempt: write-reads
are the even-indexed `read_setup` calls (`2*j` for attempt `j`), and only
attempts `j % 3 = 2` (the 3rd, 6th, ... attempts) return the written
value. -/
def thirdTimeDevice : Nat → Form :=
  fun m => if m % 6 = 4 then [("Fan", .str "1")] else [("Fan", .str "0")]

/-- The session state of a `Camera`: the four lazily populated form caches
and the info-page properties (`__init__`, lines 27-30 and 55). -/
structure CameraState where
  network : Option Form
  setup : Option Form
  exposure_config : Option Form
  filter_names : Option Form
  properties : List (String × String)
  deriving DecidableEq, Repr

/-- `Camera.reboot` (lines 83-96): populate the network cache if empty,
resubmit the network form unchanged; `timedOut` tells whether that request
raised the expected `RuntimeError`, in which case the info page is
re-fetched (`infoOk` tells whether that re-fetch succeeds, `newProps` being
the properties it would parse).  Returns the state together with `false`
when an exception escapes (`read_info` failing inside the handler). -/
def reboot (fetchNet : Form) (newProps : List (String × String))
    (timedOut infoOk : Bool) (c : CameraState) : CameraState × Bool :=
  let c1 := { c with network := some (c.network.getD fetchNet) }
  if timedOut then
    if infoOk then ({ c1 with properties := newProps }, true)
    else (c1, false)
  else (c1, true)

/-- Python's `round(n, -3)` on a nonnegative integer: round to the nearest
multiple of 1000, ties to the even multiple. -/
def pyRound1000 (n : Nat) : Nat :=
  let q := n / 1000
  let r := n % 1000
  if r < 500 then q * 1000
  else if 500 < r then (q + 1) * 1000
  else if q % 2 = 0 then q * 1000 else (q + 1) * 1000

/-- Two-digit zero-padded rendering, as in `datetime.isoformat()`. -/
def twoDigits (n : Nat) : String :=
  (if n < 10 then "0" else "") ++ toString n

/-- Six-digit zero-padded rendering of the microsecond field. -/
def sixDigits (n : Nat) : String :=
  let s := toString n
  String.mk (List.replicate (6 - s.length) '0') ++ s

/-- `datetime.isoformat()`: the fractional part is omitted entirely when
the microsecond component is zero. -/
def isoformat (date : String) (h m s micro : Nat) : String :=
  date ++ "T" ++ twoDigits h ++ ":" ++ twoDigits m ++ ":" ++ twoDigits s ++
    (if micro = 0 then "" else "." ++ sixDigits micro)

/-- The `DateTime` value built by `Camera.start_exposure` (lines 178-189):
round the microsecond to a multiple of 1000, clamp to at most 999000 (the
`micros < 0` clamp is unreachable for a nonnegative microsecond), format
with `isoformat`, and drop the last three characters. -/
def exposureDateTime (date : String) (h m s micro : Nat) : String :=
  let micros := pyRound1000 micro
  let micros' := if 999000 < micros then 999000 else micros
  (isoformat date h m s micros').dropRight 3

/-- The fixed telemetry method whitelist of `Camera.__init__`
(lines 21-26). -/
def methods : List String :=
  ["ImagerGetSettings.cgi?CCDTemperature",
   "ImagerGetSettings.cgi?CoolerPower",
   "CurrentCCDState.cgi",
   "CurrentCCDState.cgi?IncludeTimePct",
   "FilterState.cgi"]

/-- `Camera.call_api` (lines 205-216): reject any method outside the
whitelist before issuing a request; otherwise the request URL appends the
per-call random draw `rand` after `&`. -/
def call_api (url method rand : String) : Except CameraError String :=
  if methods.contains method then
    .ok (url ++ "/api/" ++ method ++ "&" ++ rand)
  else .error (.invalidMethod method)

/-- `listMin` returns a value exceeding `c` exactly when the list is
nonempty and every entry exceeds `c`. -/
theorem listMin_gt_iff (c : ℚ) (l : List ℚ) :
    (∃ m, listMin l = some m ∧ c < m) ↔ l ≠ [] ∧ ∀ t ∈ l, c < t := by
  induction l with
  | nil => simp [listMin]
  | cons x xs ih =>
    cases hxs : listMin xs with
    | none =>
      cases xs with
      | nil => simp [listMin, hxs]
      | cons y ys => simp [listMin] at hxs
    | some m =>
      have hne : xs ≠ [] := by
        intro h; subst h; simp [listMin] at hxs
      constructor
      · rintro ⟨m', hm', hc⟩
        simp only [listMin, hxs] at hm'
        have hm'' : m' = min x m := by exact (Option.some.inj hm').symm
        subst hm''
        refine ⟨by simp, ?_⟩
        intro t ht
        rcases List.mem_cons.mp ht with rfl | ht
        · exact lt_of_lt_of_le hc (min_le_left _ _)
        · have hall : ∀ u ∈ xs, c < u := by
            have := (ih).mp ⟨m, hxs, lt_of_lt_of_le hc (min_le_right _ _)⟩
            exact this.2
          exact hall t ht
      · rintro ⟨-, hall⟩
        refine ⟨min x m, by simp [listMin, hxs], ?_⟩
        have hx : c < x := hall x (by simp)
        have hm : c < m := by
          have := (ih).mpr ⟨hne, fun u hu => hall u (List.mem_cons_of_mem _ hu)⟩
          rcases this with ⟨m', hm', hc'⟩
          rw [hxs] at hm'
          cases hm'; exact hc'
        exact lt_min hx hm

/-- The latchup condition holds exactly when cooling is on, some power
sample equals 100 and every temperature sample exceeds setpoint + 2
(with at least one temperature sample present). -/
theorem latchupCondition_iff (cooling : Bool) (sp : ℚ)
    (temps pwrs : List ℚ) :
    latchupCondition cooling sp temps pwrs = true ↔
      cooling = true ∧ (∃ p ∈ pwrs, p = 100) ∧
        (temps ≠ [] ∧ ∀ t ∈ temps, sp + 2 < t) := by
  unfold latchupCondition
  constructor
  · intro h
    simp only [Bool.and_eq_true] at h
    obtain ⟨⟨hc, hany⟩, hmin⟩ := h
    refine ⟨hc, ?_, ?_⟩
    · rcases List.any_eq_true.mp hany with ⟨p, hp, hbeq⟩
      exact ⟨p, hp, by exact_mod_cast beq_iff_eq.mp hbeq⟩
    · cases hl : listMin temps with
      | none => rw [hl] at hmin; exact absurd hmin (by simp)
      | some m =>
        rw [hl] at hmin
        have : sp + 2 < m := of_decide_eq_true hmin
        exact (listMin_gt_iff (sp + 2) temps).mp ⟨m, hl, this⟩
  · rintro ⟨hc, ⟨p, hp, rfl⟩, hne, hall⟩
    obtain ⟨m, hm, hcm⟩ := (listMin_gt_iff (sp + 2) temps).mpr ⟨hne, hall⟩
    simp only [Bool.and_eq_true]
    exact ⟨⟨hc, List.any_eq_true.mpr ⟨100, hp, by simp⟩⟩,
           by rw [hm]; exact decide_eq_true hcm⟩

/-- Helper: when the device first reports state `"0"` at tick `t` before the
deadline, the monitoring loop exits at exactly tick `t` with state `"0"`. -/
theorem monitorFrom_reach (states : Nat → String) (deadline t : Nat)
    (hlt : t < deadline) (hidle : states t = "0") :
    ∀ k t0 s0, t - t0 = k → t0 ≤ t →
      (∀ u, t0 ≤ u → u < t → states u ≠ "0") →
      monitorFrom states deadline t0 s0 = (t, "0") := by
  intro k
  induction k with
  | zero =>
    intro t0 s0 hk hle _
    have ht : t0 = t := by omega
    subst ht
    unfold monitorFrom
    rw [dif_pos hlt, if_pos hidle, hidle]
  | succ k ih =>
    intro t0 s0 hk _ hmid
    have hlt0 : t0 < t := by omega
    have hne : states t0 ≠ "0" := hmid t0 le_rfl hlt0
    unfold monitorFrom
    rw [dif_pos (lt_trans hlt0 hlt), if_neg hne]
    exact ih (t0 + 1) (states t0) (by omega) (by omega)
      (fun u hu1 hu2 => hmid u (by omega) hu2)

/-- C1: with a recovery action supplied and a final device state of `"0"`,
the outcome is `LatchupDetected` with no image fetched exactly when cooling
is enabled, some cooler-power sample equals 100, and the minimum
temperature sample exceeds the setpoint by strictly more than 2; in
particular, all-100 power with minimum temperature setpoint+3 yields
`LatchupDetected` while minimum temperature setpoint+1 yields
`Completed`. -/
theorem latchup_outcome_iff (cooling : Bool) (sp : ℚ)
    (temps pwrs : List ℚ) (hne : temps ≠ []) :
    (classifyExposure cooling true sp "0" temps pwrs =
        ⟨.LatchupDetected, false⟩ ↔
      cooling = true ∧ (∃ p ∈ pwrs, p = 100) ∧ ∀ t ∈ temps, sp + 2 < t) ∧
    (∀ sp' : ℚ,
      classifyExposure true true sp' "0" [sp' + 3, sp' + 4] [100, 100] =
          ⟨.LatchupDetected, false⟩ ∧
      classifyExposure true true sp' "0" [sp' + 1, sp' + 4] [100, 100] =
          ⟨.Completed, true⟩) := by
  constructor
  · constructor
    · intro h
      by_cases hcond : latchupCondition cooling sp temps pwrs = true
      · have := (latchupCondition_iff cooling sp temps pwrs).mp hcond
        exact ⟨this.1, this.2.1, this.2.2.2⟩
      · simp only [Bool.not_eq_true] at hcond
        simp [classifyExposure, hcond] at h
    · rintro ⟨hc, hp, hall⟩
      have hcond : latchupCondition cooling sp temps pwrs = true :=
        (latchupCondition_iff cooling sp temps pwrs).mpr ⟨hc, hp, hne, hall⟩
      simp [classifyExposure, hcond]
  · intro sp'
    constructor
    · have hcond :
          latchupCondition true sp' [sp' + 3, sp' + 4] [100, 100] = true := by
        rw [latchupCondition_iff]
        refine ⟨rfl, ⟨100, by simp, rfl⟩, by simp, ?_⟩
        intro t ht
        simp only [List.mem_cons, List.not_mem_nil, or_false] at ht
        rcases ht with rfl | rfl <;> linarith
      simp [classifyExposure, hcond]
    · have hcond :
          latchupCondition true sp' [sp' + 1, sp' + 4] [100, 100] = false := by
        rw [Bool.eq_false_iff]
        intro h
        have := (latchupCondition_iff true sp' [sp' + 1, sp' + 4]
          [100, 100]).mp h
        have h1 := this.2.2.2 (sp' + 1) (by simp)
        linarith
      simp [classifyExposure, hcond]

/-- Witness for C1 at a concrete input. -/
theorem latchup_outcome_iff_witness :
    (classifyExposure true true 15 "0" [18, 19] [100, 50] =
        ⟨.LatchupDetected, false⟩ ↔
      true = true ∧ (∃ p ∈ [(100 : ℚ), 50], p = 100) ∧
        ∀ t ∈ [(18 : ℚ), 19], (15 : ℚ) + 2 < t) ∧
    (classifyExposure true true 7 "0" [7 + 3, 7 + 4] [100, 100] =
        ⟨.LatchupDetected, false⟩ ∧
      classifyExposure true true 7 "0" [7 + 1, 7 + 4] [100, 100] =
        ⟨.Completed, true⟩) :=
  ⟨(latchup_outcome_iff true 15 [18, 19] [100, 50] (by simp)).1,
   (latchup_outcome_iff true 15 [18, 19] [100, 50] (by simp)).2 7⟩

/-- C4: a device-state reading of `"0"` at tick `t` (before the monitoring
deadline, with no earlier idle reading) ends the polling loop at exactly
tick `t`; any final observed state other than `"0"` classifies as
`UnexpectedState` with no image fetched; and a device reporting `"0"`
from tick 2 onwards ends monitoring at tick 2, not at the deadline. -/
theorem monitoring_idle_ends_loop (states : Nat → String)
    (deadline t : Nat) (s0 : String) (hlt : t < deadline)
    (hfirst : ∀ u, u < t → states u ≠ "0") (hidle : states t = "0") :
    monitorFrom states deadline 0 s0 = (t, "0") ∧
    (∀ (cooling hasAction : Bool) (sp : ℚ) (fs : String)
        (temps pwrs : List ℚ), fs ≠ "0" →
      classifyExposure cooling hasAction sp fs temps pwrs =
        ⟨.UnexpectedState, false⟩) ∧
    monitorFrom (fun u => if 2 ≤ u then "0" else "2") 12 0 "?" = (2, "0") := by
  refine ⟨?_, ?_, ?_⟩
  · exact monitorFrom_reach states deadline t hlt hidle t 0 s0 rfl
      (Nat.zero_le t) (fun u _ hu => hfirst u hu)
  · intro cooling hasAction sp fs temps pwrs hfs
    simp [classifyExposure, hfs]
  · refine monitorFrom_reach _ 12 2 (by omega) (by simp) 2 0 "?" rfl
      (by omega) ?_
    intro u _ hu
    have h2 : ¬ 2 ≤ u := by omega
    simp [h2]

/-- Witness for C4 at a concrete input. -/
theorem monitoring_idle_ends_loop_witness :
    monitorFrom (fun u => if 2 ≤ u then "0" else "2") 12 0 "?" = (2, "0") ∧
    classifyExposure true true 15 "3" [18] [100] =
      ⟨.UnexpectedState, false⟩ :=
  ⟨(monitoring_idle_ends_loop (fun u => if 2 ≤ u then "0" else "2") 12 2 "?"
      (by omega) (fun u hu => by
        have h2 : ¬ 2 ≤ u := by omega
        simp [h2]) (by simp)).1,
   (monitoring_idle_ends_loop (fun u => if 2 ≤ u then "0" else "2") 12 2 "?"
      (by omega) (fun u hu => by
        have h2 : ¬ 2 ≤ u := by omega
        simp [h2]) (by simp)).2.1 true true 15 "3" [18] [100] (by simp)⟩

/-- Helper: with at least `n` readings, `coolReached` holds exactly when the
moving average is strictly within `err` of the setpoint or, with `lowOk`,
below the setpoint. -/
theorem coolReached_iff (lowOk : Bool) (sp err : ℚ) (n : Nat)
    (hist : List ℚ) (h : n ≤ hist.length) :
    coolReached lowOk sp err n hist = true ↔
      |movingAvg n hist - sp| < err ∨
        (lowOk = true ∧ movingAvg n hist < sp) := by
  unfold coolReached
  rw [if_neg (by omega)]
  simp [decide_eq_true_iff]

/-- Helper: if the cooldown loop started at tick `t` stops after reading
`tr`, then `coolReached` held at `tr` and at no earlier tick past `t`. -/
theorem cooldownLoop_some (readings : Nat → ℚ) (lowOk : Bool)
    (sp err : ℚ) (n : Nat) :
    ∀ fuel t tr, cooldownLoop readings lowOk sp err n fuel t = some tr →
      t < tr ∧
      coolReached lowOk sp err n (cooldownHist readings tr) = true ∧
      ∀ u, t < u → u < tr →
        coolReached lowOk sp err n (cooldownHist readings u) = false := by
  intro fuel
  induction fuel with
  | zero => intro t tr h; simp [cooldownLoop] at h
  | succ fuel ih =>
    intro t tr h
    rw [cooldownLoop] at h
    by_cases hc :
        coolReached lowOk sp err n (cooldownHist readings (t + 1)) = true
    · rw [if_pos hc] at h
      cases h
      exact ⟨by omega, hc, fun u hu1 hu2 => by omega⟩
    · rw [if_neg hc] at h
      obtain ⟨h1, h2, h3⟩ := ih (t + 1) tr h
      refine ⟨by omega, h2, ?_⟩
      intro u hu1 hu2
      by_cases he : u = t + 1
      · subst he; exact Bool.eq_false_iff.mpr hc
      · exact h3 u (by omega) hu2

/-- C3: whenever the cooldown loop declares the setpoint reached after `tr`
readings, at least `num_samples` readings existed, the mean of the last
`num_samples` readings at `tr` met the reach criterion (strictly within
`max_avg_error` of the setpoint, or below it when `low_temp_ok`), and no
earlier tick with at least `num_samples` readings met it; the fixture
`[15.2, 15.03, 14.98]` does not reach after the 3rd reading while
`[15.04, 14.99, 15.01]` reaches exactly there (setpoint 15, error 0.05,
3 samples). -/
theorem cooldown_reach_policy (readings : Nat → ℚ) (lowOk : Bool)
    (sp err : ℚ) (n fuel tr : Nat)
    (h : cooldownLoop readings lowOk sp err n fuel 0 = some tr) :
    (n ≤ tr ∧
      (|movingAvg n (cooldownHist readings tr) - sp| < err ∨
        (lowOk = true ∧ movingAvg n (cooldownHist readings tr) < sp)) ∧
      ∀ u, 1 ≤ u → n ≤ u → u < tr →
        ¬(|movingAvg n (cooldownHist readings u) - sp| < err ∨
          (lowOk = true ∧ movingAvg n (cooldownHist readings u) < sp))) ∧
    cooldownLoop seqA false 15 0.05 3 3 0 = none ∧
    cooldownLoop seqB false 15 0.05 3 3 0 = some 3 := by
  have hlen : ∀ u, (cooldownHist readings u).length = u := by
    intro u; simp [cooldownHist]
  obtain ⟨h1, h2, h3⟩ := cooldownLoop_some readings lowOk sp err n fuel 0 tr h
  have hntr : n ≤ tr := by
    by_contra hn
    have hshort : (cooldownHist readings tr).length < n := by
      rw [hlen]; omega
    unfold coolReached at h2
    rw [if_pos hshort] at h2
    exact Bool.false_ne_true h2
  refine ⟨⟨hntr, ?_, ?_⟩, ?_, ?_⟩
  · exact (coolReached_iff lowOk sp err n _ (by rw [hlen]; omega)).mp h2
  · intro u hu1 hun hu2 hcrit
    have := (coolReached_iff lowOk sp err n (cooldownHist readings u)
      (by rw [hlen]; omega)).mpr hcrit
    rw [h3 u (by omega) hu2] at this
    exact Bool.false_ne_true this
  · norm_num [cooldownLoop, coolReached, cooldownHist, movingAvg, seqA,
      List.range_succ]
    intro hx
    rw [abs_of_nonneg (by norm_num)] at hx
    norm_num at hx
  · norm_num [cooldownLoop, coolReached, cooldownHist, movingAvg, seqB,
      List.range_succ]
    intro hx
    rw [abs_of_nonneg (by norm_num)] at hx
    norm_num at hx

/-- Witness for C3 at a concrete input. -/
theorem cooldown_reach_policy_witness :
    ((3 ≤ 3 ∧
      (|movingAvg 3 (cooldownHist seqB 3) - 15| < 0.05 ∨
        (false = true ∧ movingAvg 3 (cooldownHist seqB 3) < 15)) ∧
      ∀ u, 1 ≤ u → 3 ≤ u → u < 3 →
        ¬(|movingAvg 3 (cooldownHist seqB u) - 15| < 0.05 ∨
          (false = true ∧ movingAvg 3 (cooldownHist seqB u) < 15))) ∧
    cooldownLoop seqA false 15 0.05 3 3 0 = none ∧
    cooldownLoop seqB false 15 0.05 3 3 0 = some 3) :=
  cooldown_reach_policy seqB false 15 0.05 3 3 3 (by
    norm_num [cooldownLoop, coolReached, cooldownHist, movingAvg, seqB,
      List.range_succ]
    intro hx
    rw [abs_of_nonneg (by norm_num)] at hx
    norm_num at hx)

/-- C5 counterexample: on a concrete session whose network cache holds a
form, a reboot whose handshake succeeds (expected timeout observed and the
info page re-fetched, so the call returns normally) leaves the
network-config cache slot holding that form — it is not cleared. -/
theorem reboot_no_clear_counterexample :
    (reboot [] [("n", "v")] true true
      ⟨some [("IP", FVal.str "10")], some [], none, none, []⟩).2 = true ∧
    (reboot [] [("n", "v")] true true
      ⟨some [("IP", FVal.str "10")], some [], none, none, []⟩).1.network =
      some [("IP", FVal.str "10")] :=
  ⟨rfl, rfl⟩

/-- C5 (amended): `reboot` never clears any cache slot.  The CCD-setup,
exposure-config and filter-config slots are always unchanged; the network
slot ends up populated (with the freshly read form when it was empty,
otherwise its prior value) whether or not the handshake succeeds; a
successful handshake re-fetches the info-page properties, and a failed one
changes nothing else. -/
theorem reboot_cache_behaviour (fetchNet : Form)
    (newProps : List (String × String)) (timedOut infoOk : Bool)
    (c : CameraState) :
    (reboot fetchNet newProps timedOut infoOk c).1.setup = c.setup ∧
    (reboot fetchNet newProps timedOut infoOk c).1.exposure_config =
      c.exposure_config ∧
    (reboot fetchNet newProps timedOut infoOk c).1.filter_names =
      c.filter_names ∧
    (reboot fetchNet newProps timedOut infoOk c).1.network =
      some (c.network.getD fetchNet) ∧
    (reboot fetchNet newProps timedOut infoOk c).1.properties =
      (if timedOut && infoOk then newProps else c.properties) ∧
    (reboot fetchNet newProps timedOut infoOk c).2 = (!timedOut || infoOk) := by
  cases timedOut <;> cases infoOk <;> simp [reboot]

/-- C9: evaluating the `DateTime` construction of `start_exposure` at the
failing inputs.  When the microsecond component rounds to 0 (any value
below 500, and exactly 500 by ties-to-even), `isoformat()` omits the
fractional part, so dropping the final three characters removes the
seconds field instead of the sub-millisecond digits; other values do get
millisecond precision, and 999999 is clamped so the second never
overflows. -/
theorem datetime_seconds_dropped :
    exposureDateTime "2020-01-01" 12 0 5 0 = "2020-01-01T12:00" ∧
    exposureDateTime "2020-01-01" 12 0 5 499 = "2020-01-01T12:00" ∧
    exposureDateTime "2020-01-01" 12 0 5 500 = "2020-01-01T12:00" ∧
    exposureDateTime "2020-01-01" 12 0 5 123456 = "2020-01-01T12:00:05.123" ∧
    exposureDateTime "2020-01-01" 12 0 5 999999 = "2020-01-01T12:00:05.999" := by
  refine ⟨?_, ?_, ?_, ?_, ?_⟩ <;> decide

/-- C10: the telemetry whitelist has exactly five methods; any method
outside it is rejected with `ValueError` before any request URL is formed;
a whitelisted method's request URL carries the per-call random draw, so
calls with distinct draws issue distinct URLs. -/
theorem call_api_whitelist (url m rand r1 r2 : String) :
    methods.length = 5 ∧
    (m ∉ methods → call_api url m rand = .error (.invalidMethod m)) ∧
    (m ∈ methods →
      call_api url m rand = .ok (url ++ "/api/" ++ m ++ "&" ++ rand) ∧
      (r1 ≠ r2 → call_api url m r1 ≠ call_api url m r2)) := by
  refine ⟨rfl, ?_, ?_⟩
  · intro hm
    simp only [call_api]
    rw [if_neg (by simpa using hm)]
  · intro hm
    have hc : methods.contains m = true := by
      simpa using hm
    constructor
    · simp only [call_api]
      rw [if_pos hc]
    · intro hne he
      simp only [call_api, hc, if_pos] at he
      have hu := Except.ok.inj he
      apply hne
      have hd := congrArg String.data hu
      simp only [String.data_append] at hd
      exact String.ext (List.append_cancel_left hd)

/-- Witness for C10 at concrete inputs. -/
theorem call_api_whitelist_witness :
    call_api "http://10.0.1.3" "Nope.cgi" "0.5" =
      .error (.invalidMethod "Nope.cgi") ∧
    call_api "http://10.0.1.3" "FilterState.cgi" "0.5" =
      .ok ("http://10.0.1.3" ++ "/api/" ++ "FilterState.cgi" ++ "&" ++ "0.5") ∧
    call_api "http://10.0.1.3" "FilterState.cgi" "0.1" ≠
      call_api "http://10.0.1.3" "FilterState.cgi" "0.2" :=
  ⟨(call_api_whitelist "http://10.0.1.3" "Nope.cgi" "0.5" "0.1" "0.2").2.1
      (by decide),
   ((call_api_whitelist "http://10.0.1.3" "FilterState.cgi" "0.5" "0.1"
      "0.2").2.2 (by decide)).1,
   ((call_api_whitelist "http://10.0.1.3" "FilterState.cgi" "0.5" "0.1"
      "0.2").2.2 (by decide)).2 (by decide)⟩

/-- Helper: an error raised at one tag event makes the whole parse of the
document fail with that error. -/
theorem feed_append_error (pre : List TagEvent) (ev : TagEvent)
    (post : List TagEvent) (st : ParserState) (e : ParseError)
    (h : feed pre = .ok st) (hstep : handleTag st ev = .error e) :
    feed (pre ++ ev :: post) = .error e := by
  unfold feed feedFrom at h ⊢
  rw [List.foldlM_append, h]
  show feedFrom st (ev :: post) = .error e
  unfold feedFrom
  rw [List.foldlM_cons, hstep]
  rfl

/-- C6: from any parser state reached by a successfully parsed prefix, a
second form with an already-seen name, an orphan input, an input with an
unsupported type, and a duplicate text/hidden field name each make the
whole document parse fail with their specific error — the parse never
silently succeeds. -/
theorem parse_errors_deterministic (pre post : List TagEvent)
    (st : ParserState) (h : feed pre = .ok st) :
    (∀ n, (lookupAssoc st.forms n).isSome = true →
      feed (pre ++ .startForm n :: post) = .error (.duplicateForm n)) ∧
    (∀ itype n v c, st.current = none →
      feed (pre ++ .startInput itype n v c :: post) = .error .orphanInput) ∧
    (∀ fname itype n v c, st.current = some fname →
      itype ∉ allowedInputTypes →
      feed (pre ++ .startInput itype n v c :: post) =
        .error (.badInputType fname itype)) ∧
    (∀ fname itype n v c, st.current = some fname →
      (itype = "text" ∨ itype = "hidden") →
      (lookupForm ((lookupAssoc st.forms fname).getD []) n).isSome = true →
      feed (pre ++ .startInput itype n v c :: post) =
        .error (.duplicateField fname n)) := by
  refine ⟨?_, ?_, ?_, ?_⟩
  · intro n hdup
    refine feed_append_error pre _ post st _ h ?_
    simp [handleTag, hdup]
  · intro itype n v c hcur
    refine feed_append_error pre _ post st _ h ?_
    simp [handleTag, hcur]
  · intro fname itype n v c hcur hni
    refine feed_append_error pre _ post st _ h ?_
    simp only [handleTag, hcur]
    rw [if_pos (by simpa using hni)]
  · intro fname itype n v c hcur hth hdup
    refine feed_append_error pre _ post st _ h ?_
    rcases hth with rfl | rfl <;> simp [handleTag, hcur, hdup] <;> decide

/-- Witness for C6 at concrete documents. -/
theorem parse_errors_deterministic_witness :
    feed [.startForm "F", .startForm "F"] = .error (.duplicateForm "F") ∧
    feed [.startInput "text" "A" "1" false] = .error .orphanInput ∧
    feed [.startForm "F", .startInput "file" "A" "1" false] =
      .error (.badInputType "F" "file") ∧
    feed [.startForm "F", .startInput "text" "A" "1" false,
          .startInput "hidden" "A" "2" false] =
      .error (.duplicateField "F" "A") :=
  ⟨(parse_errors_deterministic [.startForm "F"] []
      ⟨[("F", [])], some "F"⟩ rfl).1 "F" (by decide),
   (parse_errors_deterministic [] [] initParserState rfl).2.1
      "text" "A" "1" false rfl,
   (parse_errors_deterministic [.startForm "F"] []
      ⟨[("F", [])], some "F"⟩ rfl).2.2.1 "F" "file" "A" "1" false rfl
      (by decide),
   (parse_errors_deterministic [.startForm "F", .startInput "text" "A" "1"
        false] [] ⟨[("F", [("A", .str "1")])], some "F"⟩ rfl).2.2.2
      "F" "hidden" "A" "2" false rfl (.inr rfl) (by decide)⟩

/-- Helper: unfolding ordered-dictionary lookup. -/
theorem lookupForm_cons (a : String) (b : FVal) (t : Form) (q : String) :
    lookupForm ((a, b) :: t) q = if a = q then some b else lookupForm t q := by
  by_cases h : a = q <;> simp [lookupForm, List.find?_cons, h]

/-- Helper: appending a fresh key does not make an absent key present. -/
theorem lookupForm_append_none (k q : String) (v : FVal) :
    ∀ a : Form, lookupForm a q = none → q ≠ k →
      lookupForm (a ++ [(k, v)]) q = none := by
  intro a
  induction a with
  | nil =>
    intro _ hne
    rw [List.nil_append, lookupForm_cons, if_neg (fun h => hne h.symm)]
    rfl
  | cons hd tl ih =>
    intro hq hne
    rw [List.cons_append, lookupForm_cons]
    rw [lookupForm_cons] at hq
    by_cases h : hd.1 = q
    · simp [h] at hq
    · rw [if_neg h] at hq ⊢
      exact ih hq hne

/-- Helper: feeding the echoed text/hidden inputs of a radio-free form into
an open form accumulates exactly those pairs, in order. -/
theorem feed_echo_inputs (fname : String) :
    ∀ (f acc : Form),
      (∀ p ∈ f, ∃ s, p.2 = FVal.str s) →
      (∀ p ∈ f, lookupForm acc p.1 = none) →
      (f.map Prod.fst).Nodup →
      feedFrom ⟨[(fname, acc)], some fname⟩
        (f.map (fun p => .startInput "hidden" p.1 (fvalText p.2) false)) =
        .ok ⟨[(fname, acc ++ f)], some fname⟩ := by
  intro f
  induction f with
  | nil =>
    intro acc _ _ _
    show (pure (⟨[(fname, acc)], some fname⟩ : ParserState) :
      Except ParseError ParserState) = _
    rw [List.append_nil]
    rfl
  | cons hd tl ih =>
    intro acc hstr hfresh hnd
    obtain ⟨s, hs⟩ := hstr hd (by simp)
    have hlook : lookupForm acc hd.1 = none := hfresh hd (by simp)
    have hstep :
        handleTag ⟨[(fname, acc)], some fname⟩
          (.startInput "hidden" hd.1 (fvalText hd.2) false) =
        .ok ⟨[(fname, acc ++ [(hd.1, FVal.str s)])], some fname⟩ := by
      simp [handleTag, allowedInputTypes, lookupAssoc, List.find?_cons,
        hlook, hs, fvalText, setAssoc]
    unfold feedFrom
    rw [List.map_cons, List.foldlM_cons, hstep]
    show feedFrom ⟨[(fname, acc ++ [(hd.1, FVal.str s)])], some fname⟩
        (tl.map (fun p => .startInput "hidden" p.1 (fvalText p.2) false)) = _
    have hres := ih (acc ++ [(hd.1, FVal.str s)])
      (fun p hp => hstr p (by simp [hp]))
      (fun p hp => by
        refine lookupForm_append_none hd.1 p.1 (FVal.str s) acc
          (hfresh p (by simp [hp])) ?_
        intro he
        rw [List.map_cons] at hnd
        exact (List.nodup_cons.mp hnd).1 (he ▸ List.mem_map_of_mem _ hp))
      (by rw [List.map_cons] at hnd; exact (List.nodup_cons.mp hnd).2)
    rw [hres]
    simp [← hs, List.append_assoc]

/-- C8: for a form with no radio fields (every value a plain string, no
underscore-prefixed key) and distinct field names, `_build_query` succeeds
on the unmodified form and produces the full `name=value` query string,
and parsing the simulated device echo of that query (a form whose inputs
carry exactly the submitted name/value pairs) reproduces the same field
names mapped to the same values, in the same order. -/
theorem query_roundtrip (f : Form) (formName : String)
    (hstr : ∀ p ∈ f, ∃ s, p.2 = FVal.str s)
    (hus : ∀ p ∈ f, keptName p.1 = true)
    (hnd : (f.map Prod.fst).Nodup) :
    buildQuery f [] =
      .ok (f, "?" ++ String.intercalate "&"
        (f.map (fun p => p.1 ++ "=" ++ fvalText p.2))) ∧
    feed (.startForm formName ::
        (f.map (fun p => .startInput "hidden" p.1 (fvalText p.2) false)) ++
        [.endForm]) =
      .ok ⟨[(formName, f)], none⟩ := by
  constructor
  · have hfil : f.filter (fun p => keptName p.1) = f := by
      apply List.filter_eq_self.mpr
      intro p hp
      simpa using hus p hp
    simp [buildQuery, hfil, mergeKwargs]
  · have hstart :
        handleTag initParserState (.startForm formName) =
        .ok ⟨[(formName, [])], some formName⟩ := by
      simp [handleTag, initParserState, lookupAssoc]
    unfold feed feedFrom
    rw [List.cons_append, List.foldlM_cons, hstart]
    show feedFrom ⟨[(formName, [])], some formName⟩ _ = _
    unfold feedFrom
    rw [List.foldlM_append]
    have hmid := feed_echo_inputs formName f []
      hstr (fun p _ => rfl) hnd
    unfold feedFrom at hmid
    rw [hmid]
    simp only [List.nil_append]
    rfl

/-- Witness for C8 at a concrete form. -/
theorem query_roundtrip_witness :
    buildQuery [("Bin", FVal.str "2"), ("Fan", FVal.str "1")] [] =
      .ok ([("Bin", FVal.str "2"), ("Fan", FVal.str "1")],
        "?" ++ String.intercalate "&"
          ([("Bin", FVal.str "2"), ("Fan", FVal.str "1")].map
            (fun p => p.1 ++ "=" ++ fvalText p.2))) ∧
    feed (.startForm "CameraSetup" ::
        ([("Bin", FVal.str "2"), ("Fan", FVal.str "1")].map
          (fun p => .startInput "hidden" p.1 (fvalText p.2) false)) ++
        [.endForm]) =
      .ok ⟨[("CameraSetup",
            [("Bin", FVal.str "2"), ("Fan", FVal.str "1")])], none⟩ :=
  query_roundtrip [("Bin", FVal.str "2"), ("Fan", FVal.str "1")]
    "CameraSetup"
    (by
      intro p hp
      simp only [List.mem_cons, List.not_mem_nil, or_false] at hp
      rcases hp with rfl | rfl
      · exact ⟨"2", rfl⟩
      · exact ⟨"1", rfl⟩)
    (by
      intro p hp
      simp only [List.mem_cons, List.not_mem_nil, or_false] at hp
      rcases hp with rfl | rfl <;> rfl)
    (by decide)

/-- Helper: updating a present key preserves which keys are absent. -/
theorem lookupForm_setForm_none (k q : String) (v : FVal) :
    ∀ params : Form, (lookupForm params k).isSome = true →
      (lookupForm (setForm params k v) q = none ↔
        lookupForm params q = none) := by
  intro params
  induction params with
  | nil => intro h; simp [lookupForm] at h
  | cons hd tl ih =>
    intro h
    rcases hd with ⟨k', v'⟩
    by_cases hk : k' = k
    · subst hk
      have hset : setForm ((k', v') :: tl) k' v = (k', v) :: tl := by
        simp [setForm]
      rw [hset, lookupForm_cons, lookupForm_cons]
      by_cases hq : k' = q <;> simp [hq]
    · have hset : setForm ((k', v') :: tl) k v =
          (k', v') :: setForm tl k v := by
        simp [setForm, hk]
      rw [hset, lookupForm_cons, lookupForm_cons]
      by_cases hq : k' = q
      · simp [hq]
      · simp only [if_neg hq]
        apply ih
        rw [lookupForm_cons, if_neg hk] at h
        exact h

/-- Helper: when some override key is absent from the baseline, the merge
loop of `_build_query` raises `ValueError` for such a key. -/
theorem mergeKwargs_error (kwargs : List (String × String)) :
    ∀ params : Form, (∃ p ∈ kwargs, lookupForm params p.1 = none) →
      ∃ n, lookupForm params n = none ∧
        mergeKwargs params kwargs = .error (.invalidName n) := by
  induction kwargs with
  | nil => intro params h; simp at h
  | cons hd tl ih =>
    intro params h
    rcases hd with ⟨n0, v0⟩
    by_cases hk : (lookupForm params n0).isSome = true
    · have hbad : ∃ p ∈ tl,
          lookupForm (setForm params n0 (.str v0)) p.1 = none := by
        rcases h with ⟨p, hp, hnone⟩
        rcases List.mem_cons.mp hp with rfl | hp'
        · rw [hnone] at hk; simp at hk
        · exact ⟨p, hp',
            (lookupForm_setForm_none n0 p.1 _ params hk).mpr hnone⟩
      obtain ⟨n, hn, hm⟩ := ih (setForm params n0 (.str v0)) hbad
      refine ⟨n, (lookupForm_setForm_none n0 n _ params hk).mp hn, ?_⟩
      rw [mergeKwargs, if_pos hk]
      exact hm
    · have hnone : lookupForm params n0 = none := by
        cases hl : lookupForm params n0
        · rfl
        · rw [hl] at hk; simp at hk
      refine ⟨n0, hnone, ?_⟩
      rw [mergeKwargs, if_neg hk]

/-- C7 (amended): when the overrides contain a key absent from the
baseline, `write_setup` fails with the unknown-field `ValueError` before
building any query string and without issuing any write: with the setup
cache already populated no request at all is issued and all state is
unchanged; with an empty cache exactly the single lazy baseline read is
issued (populating the setup slot) and nothing else. -/
theorem write_setup_unknown_field (device : Nat → Form) (f0 : Form)
    (kwargs : List (String × String)) (mr : Nat)
    (h1 : ∃ p ∈ kwargs,
      lookupForm (f0.filter (fun q => keptName q.1)) p.1 = none)
    (h2 : ∃ p ∈ kwargs,
      lookupForm ((device 0).filter (fun q => keptName q.1)) p.1 = none) :
    (∃ n, lookupForm (f0.filter (fun q => keptName q.1)) n = none ∧
      write_setup device (some f0) kwargs mr =
        ⟨some f0, [], 0, .error (.invalidName n)⟩) ∧
    (∃ n, lookupForm ((device 0).filter (fun q => keptName q.1)) n = none ∧
      write_setup device none kwargs mr =
        ⟨some (device 0), ["/setup.html"], 0, .error (.invalidName n)⟩) := by
  constructor
  · obtain ⟨n, hn, hm⟩ := mergeKwargs_error kwargs _ h1
    exact ⟨n, hn, by simp [write_setup, buildQuery, hm]⟩
  · obtain ⟨n, hn, hm⟩ := mergeKwargs_error kwargs _ h2
    exact ⟨n, hn, by simp [write_setup, buildQuery, hm]⟩

/-- Witness for C7 at a concrete device and override set. -/
theorem write_setup_unknown_field_witness :
    (∃ n, lookupForm ([("Fan", FVal.str "0")].filter
        (fun q => keptName q.1)) n = none ∧
      write_setup (fun _ => [("Fan", FVal.str "0")]) (some [("Fan",
        FVal.str "0")]) [("Bogus", "1")] 2 =
        ⟨some [("Fan", FVal.str "0")], [], 0,
          .error (.invalidName n)⟩) ∧
    (∃ n, lookupForm (((fun _ => [("Fan", FVal.str "0")] : Nat → Form)
          0).filter (fun q => keptName q.1)) n = none ∧
      write_setup (fun _ => [("Fan", FVal.str "0")]) none
        [("Bogus", "1")] 2 =
        ⟨some [("Fan", FVal.str "0")], ["/setup.html"], 0,
          .error (.invalidName n)⟩) :=
  write_setup_unknown_field (fun _ => [("Fan", FVal.str "0")])
    [("Fan", FVal.str "0")] [("Bogus", "1")] 2
    ⟨("Bogus", "1"), by decide, by decide⟩
    ⟨("Bogus", "1"), by decide, by decide⟩

/-- C7 counterexample: with an empty setup cache and an unknown override
key, the call does fail with the unknown-field error, but a baseline read
request IS sent to the device and the setup cache slot changes from empty
to populated — contradicting "no request is sent and the session caches
are unchanged". -/
theorem write_setup_unknown_field_counterexample :
    (write_setup (fun _ => [("Fan", FVal.str "0")]) none [("Bogus", "1")]
      0).result = .error (.invalidName "Bogus") ∧
    (write_setup (fun _ => [("Fan", FVal.str "0")]) none [("Bogus", "1")]
      0).requests = ["/setup.html"] ∧
    (write_setup (fun _ => [("Fan", FVal.str "0")]) none [("Bogus", "1")]
      0).setup = some [("Fan", FVal.str "0")] :=
  ⟨rfl, rfl, rfl⟩

/-- Helper: the write/verify loop makes at most `fuel` further attempts. -/
theorem writeLoop_attempts_le (device : Nat → Form) (news : Form)
    (query : String) :
    ∀ fuel k a st reqs,
      (writeLoop device news query fuel k a st reqs).attempts ≤ a + fuel := by
  intro fuel
  induction fuel with
  | zero => intro k a st reqs; simp [writeLoop]
  | succ r ih =>
    intro k a st reqs
    rcases hv : verifySetup news (device k) with _ | _ | n <;>
      simp only [writeLoop, hv]
    · omega
    · exact le_trans (ih (k + 2) (a + 1) (device (k + 1)) _) (by omega)
    · omega

/-- Helper: the loop stops successfully at the first verifying attempt. -/
theorem writeLoop_success (device : Nat → Form) (news : Form)
    (query : String) :
    ∀ fuel j k a st reqs, j < fuel →
      verifySetup news (device (k + 2 * j)) = .ok →
      (∀ i < j, verifySetup news (device (k + 2 * i)) = .mismatch) →
      (writeLoop device news query fuel k a st reqs).status = .ok ∧
      (writeLoop device news query fuel k a st reqs).attempts = a + j + 1 := by
  intro fuel
  induction fuel with
  | zero => intro j k a st reqs hj; omega
  | succ r ih =>
    intro j k a st reqs hj hok hmis
    cases j with
    | zero =>
      have h0 : verifySetup news (device k) = .ok := by
        simpa using hok
      simp [writeLoop, h0]
    | succ j' =>
      have h0 : verifySetup news (device k) = .mismatch := by
        have := hmis 0 (by omega)
        simpa using this
      simp only [writeLoop, h0]
      have hok' : verifySetup news (device ((k + 2) + 2 * j')) = .ok := by
        have e : k + 2 * (j' + 1) = (k + 2) + 2 * j' := by omega
        rw [e] at hok
        exact hok
      have hmis' : ∀ i < j',
          verifySetup news (device ((k + 2) + 2 * i)) = .mismatch := by
        intro i hi
        have e : k + 2 * (i + 1) = (k + 2) + 2 * i := by omega
        have := hmis (i + 1) (by omega)
        rw [e] at this
        exact this
      obtain ⟨hs, ha⟩ := ih j' (k + 2) (a + 1) (device (k + 1))
        (reqs ++ ["/setup.html" ++ query] ++ ["/setup.html"])
        (by omega) hok' hmis'
      exact ⟨hs, by rw [ha]; omega⟩

/-- Helper: an exhausted loop's attempts all failed verification. -/
theorem writeLoop_exhausted (device : Nat → Form) (news : Form)
    (query : String) :
    ∀ fuel k a st reqs,
      (writeLoop device news query fuel k a st reqs).status = .mismatch →
      ∀ j < fuel, verifySetup news (device (k + 2 * j)) = .mismatch := by
  intro fuel
  induction fuel with
  | zero => intro k a st reqs _ j hj; omega
  | succ r ih =>
    intro k a st reqs h j hj
    rcases hv : verifySetup news (device k) with _ | _ | n
    · simp [writeLoop, hv] at h
    · simp only [writeLoop, hv] at h
      cases j with
      | zero => simpa using hv
      | succ j' =>
        have := ih (k + 2) (a + 1) (device (k + 1))
          (reqs ++ ["/setup.html" ++ query] ++ ["/setup.html"]) h j'
          (by omega)
        have e : k + 2 * (j' + 1) = (k + 2) + 2 * j' := by omega
        rw [e]
        exact this
    · simp [writeLoop, hv] at h

/-- C2: with the setup cache populated and a valid override set, the
write/verify loop attempts the read-write-verify cycle at most
`max_retries + 1` times, returns normally at the first verifying attempt
(making exactly that many attempts), and raises the verification
`RuntimeError` only when every permitted attempt failed verification; in
particular against a device that accepts a write only on every 3rd
attempt, `max_retries=3` succeeds while `max_retries=1` fails with the
verification error. -/
theorem write_setup_retry_contract (device : Nat → Form) (f0 news : Form)
    (kwargs : List (String × String)) (mr : Nat) (query : String)
    (hq : buildQuery f0 kwargs = .ok (news, query)) :
    (write_setup device (some f0) kwargs mr).attempts ≤ mr + 1 ∧
    (∀ j, j ≤ mr → verifySetup news (device (2 * j)) = .ok →
      (∀ i < j, verifySetup news (device (2 * i)) = .mismatch) →
      (write_setup device (some f0) kwargs mr).result = .ok () ∧
      (write_setup device (some f0) kwargs mr).attempts = j + 1) ∧
    ((write_setup device (some f0) kwargs mr).result =
        .error (.verifyFailed mr) →
      ∀ j, j ≤ mr → verifySetup news (device (2 * j)) = .mismatch) ∧
    (write_setup thirdTimeDevice (some [("Fan", FVal.str "0")])
        [("Fan", "1")] 3).result = .ok () ∧
    (write_setup thirdTimeDevice (some [("Fan", FVal.str "0")])
        [("Fan", "1")] 1).result = .error (.verifyFailed 1) := by
  refine ⟨?_, ?_, ?_, rfl, rfl⟩
  · simp only [write_setup, hq]
    exact le_trans
      (writeLoop_attempts_le device news query (1 + mr) 0 0 f0 []) (by omega)
  · intro j hj hok hmis
    obtain ⟨hs, ha⟩ := writeLoop_success device news query (1 + mr) j 0 0
      f0 [] (by omega) (by simpa using hok) (by simpa using hmis)
    constructor
    · simp only [write_setup, hq, hs]
    · simp only [write_setup, hq, ha]
      omega
  · intro hres j hj
    have hs : (writeLoop device news query (1 + mr) 0 0 f0 []).status =
        .mismatch := by
      simp only [write_setup, hq] at hres
      rcases hv : (writeLoop device news query (1 + mr) 0 0 f0 []).status
        with _ | _ | n <;> rw [hv] at hres <;>
        exact absurd hres (by simp)
    have := writeLoop_exhausted device news query (1 + mr) 0 0 f0 [] hs j
      (by omega)
    simpa using this

/-- Witness for C2 at the every-3rd-attempt device. -/
theorem write_setup_retry_contract_witness :
    (write_setup thirdTimeDevice (some [("Fan", FVal.str "0")])
        [("Fan", "1")] 3).attempts ≤ 3 + 1 ∧
    (write_setup thirdTimeDevice (some [("Fan", FVal.str "0")])
        [("Fan", "1")] 3).result = .ok () ∧
    (write_setup thirdTimeDevice (some [("Fan", FVal.str "0")])
        [("Fan", "1")] 3).attempts = 2 + 1 ∧
    (write_setup thirdTimeDevice (some [("Fan", FVal.str "0")])
        [("Fan", "1")] 1).result = .error (.verifyFailed 1) := by
  have h := write_setup_retry_contract thirdTimeDevice
    [("Fan", FVal.str "0")] [("Fan", FVal.str "1")] [("Fan", "1")] 3
    "?Fan=1" rfl
  have hj := h.2.1 2 (by omega) (by decide) (by decide)
  exact ⟨h.1, hj.1, hj.2, h.2.2.2.2⟩

end STXL
